import Mathlib

/-!
Shallow embedding of `scripts/ubuntu_health_check.py`.

The script collects facts about the host (via external commands), evaluates
three failure rules (root-disk threshold, ping, services), assembles a report
dictionary, prints it and exits 0/1.  We model the collector boundary as an
`Env` record holding the outputs of the external probes (the tokens parsed
from `df`, the ping/systemctl/apt/docker availability and results, the
memory figures from `/proc/meminfo`, and the purely informational strings),
and the CLI arguments as `Args`.  `run` performs the script's own logic:
Python `int()` applied to the disk-percentage token may raise, so `run`
returns `Option Report` (`none` models the uncaught exception).
-/

namespace UbuntuHealth

/-- Python `str.split()` with no argument: split on whitespace runs,
dropping empty tokens. -/
def pySplit (s : String) : List String :=
  (s.split Char.isWhitespace).filter (fun t => t ≠ "")

/-- Python `str.rstrip("%")`: drop all trailing `%` characters. -/
def rstripPercent (s : String) : String :=
  String.mk ((s.data.reverse.dropWhile (fun c => c = '%')).reverse)

/-- Numeric value of a list of decimal digit characters. -/
def digitsVal (l : List Char) : Nat :=
  l.foldl (fun a c => a * 10 + (c.toNat - 48)) 0

/-- All characters are decimal digits. -/
def allDigits (l : List Char) : Bool :=
  l.all (fun c => c.isDigit)

/-- Python `int(s)` on an already-stripped token: an optional sign followed by
at least one digit; `none` models the `ValueError` raised otherwise. -/
def pyInt? (s : String) : Option Int :=
  match s.data with
  | [] => none
  | '-' :: rest =>
      if rest ≠ [] ∧ allDigits rest then some (-(digitsVal rest : Int)) else none
  | l => if allDigits l then some (digitsVal l : Int) else none

/-- Python `round(x, 1)`: round to one decimal place. -/
def pyRound1 (q : ℚ) : ℚ := (round (q * 10) : ℤ) / 10

/-- The CLI arguments of the script (`--disk-threshold`, `--ping`,
`--services`, `--format`), after argparse/env-var resolution. -/
structure Args where
  diskThreshold : Int
  ping : String
  services : String
  format : String
  deriving Repr, DecidableEq

/-- Outputs of the external probes consumed by the script: one field per
collected fact, at the boundary where the script's own logic takes over. -/
structure Env where
  host : String
  kernel : String
  osName : String
  uptimeOut : String
  bootOut : String
  load1 : String
  load5 : String
  load15 : String
  /-- stripped stdout of the mpstat/top pipeline -/
  cpuOut : String
  /-- MemTotal figure read from /proc/meminfo (kB) -/
  memTotal : Nat
  /-- MemAvailable figure read from /proc/meminfo (kB) -/
  memAvail : Nat
  /-- the six whitespace-separated tokens of the `df -hP /` second line;
  all empty when `df` produced no output -/
  diskFs : String
  diskSize : String
  diskUsed : String
  diskAvail : String
  diskUsePct : String
  diskMount : String
  /-- result of `shutil.which("ping")`: the tool was found -/
  pingAvailable : Bool
  /-- whether the single ping probe exited with status 0 -/
  pingExitZero : Bool
  /-- result of `shutil.which("systemctl")`: the tool was found -/
  systemctlAvailable : Bool
  /-- whether `systemctl is-active --quiet <svc>` exited with status 0 -/
  serviceActive : String → Bool
  /-- result of `shutil.which("apt-get")`: the tool was found -/
  aptAvailable : Bool
  /-- stdout of the `apt-get -s upgrade` counting pipeline -/
  aptOut : String
  /-- result of `shutil.which("docker")`: the tool was found -/
  dockerAvailable : Bool
  /-- whether `docker info` exited with status 0 -/
  dockerInfoOk : Bool

/-- The `memory` sub-record of the report. -/
structure MemoryInfo where
  used_pct : ℚ
  used_kb : Int
  total_kb : Nat
  deriving Repr, DecidableEq

/-- The `disk_root` sub-record of the report.  `used_pct` holds exactly what the
script stores there: the fifth `df` token, a string. -/
structure DiskRoot where
  used_pct : String
  size : String
  avail : String
  threshold_pct : Int
  deriving Repr, DecidableEq

/-- The `network` sub-record of the report. -/
structure NetworkInfo where
  ping_host : String
  ping_ok : String
  deriving Repr, DecidableEq

/-- The `services` sub-record of the report. -/
structure ServicesInfo where
  checked : List String
  down : List String
  deriving Repr, DecidableEq

/-- The assembled report (`data` dictionary of the script), minus the
wall-clock timestamp. -/
structure Report where
  host : String
  os : String
  kernel : String
  uptime : String
  boot_time : String
  load1m : String
  load5m : String
  load15m : String
  cpu_usage_pct : Option String
  memory : MemoryInfo
  disk_root : DiskRoot
  network : NetworkInfo
  services : ServicesInfo
  upgrades_pending : Option Int
  docker : Option String
  status : String
  failures : List String
  deriving Repr, DecidableEq

/-- Python `args.services.split()`. -/
def checkedServices (args : Args) : List String := pySplit args.services

/-- Code `disk_use_num = int(disk_use_pct.rstrip("%")) if disk_use_pct else 0`;
`none` models the `ValueError` from `int()` aborting the run. -/
def diskUseNum? (env : Env) : Option Int :=
  if env.diskUsePct = "" then some 0
  else pyInt? (rstripPercent env.diskUsePct)

/-- The string `f"Root disk usage {disk_use_pct} exceeds {args.disk_threshold}%"`. -/
def diskMsg (env : Env) (args : Args) : String :=
  "Root disk usage " ++ env.diskUsePct ++ " exceeds " ++
    toString args.diskThreshold ++ "%"

/-- The tri-state ping classification stored in `ping_ok`. -/
def pingOkStr (env : Env) : String :=
  if env.pingAvailable then (if env.pingExitZero then "true" else "false")
  else "unknown"

/-- The string `f"Ping to {args.ping} failed"`. -/
def pingMsg (args : Args) : String := "Ping to " ++ args.ping ++ " failed"

/-- The `services_down` list, collected only when systemctl is available. -/
def servicesDown (env : Env) (args : Args) : List String :=
  if env.systemctlAvailable then
    (checkedServices args).filter (fun s => !env.serviceActive s)
  else []

/-- The string `"Services not active: " + " ".join(services_down)`. -/
def svcMsg (env : Env) (args : Args) : String :=
  "Services not active: " ++ String.intercalate " " (servicesDown env args)

/-- Entries the disk rule appends to `failures`. -/
def diskFailList (u : Int) (env : Env) (args : Args) : List String :=
  if u > args.diskThreshold then [diskMsg env args] else []

/-- Entries the ping rule appends to `failures` (only inside the
`has("ping")` branch, when the classification is `"false"`). -/
def pingFailList (env : Env) (args : Args) : List String :=
  if env.pingAvailable then
    (if pingOkStr env = "false" then [pingMsg args] else [])
  else []

/-- Entries the services rule appends to `failures` (only inside the
`has("systemctl")` branch, when some checked service is down). -/
def svcFailList (env : Env) (args : Args) : List String :=
  if env.systemctlAvailable then
    (if servicesDown env args ≠ [] then [svcMsg env args] else [])
  else []

/-- The `failures` list, in the script's append order: disk, ping, services. -/
def failuresList (u : Int) (env : Env) (args : Args) : List String :=
  diskFailList u env args ++ pingFailList env args ++ svcFailList env args

/-- Code `status = "healthy" if not failures else "unhealthy"`. -/
def statusOf (fs : List String) : String :=
  if fs = [] then "healthy" else "unhealthy"

/-- Code `mem_used = mem_total - mem_avail` (Python int subtraction). -/
def memUsedKb (env : Env) : Int := (env.memTotal : Int) - (env.memAvail : Int)

/-- Code `mem_used_pct = round((mem_used / mem_total) * 100, 1) if mem_total else 0`. -/
def memUsedPct (env : Env) : ℚ :=
  if env.memTotal ≠ 0 then
    pyRound1 (((memUsedKb env : ℚ) / (env.memTotal : ℚ)) * 100)
  else 0

/-- Code `cpu_usage = r.stdout.strip() or None`. -/
def cpuUsage (env : Env) : Option String :=
  if env.cpuOut = "" then none else some env.cpuOut

/-- The `pkg_upgrades` value: parse the apt pipeline output when apt-get is available;
the `try/except` turns a parse failure into `None`. -/
def pkgUpgrades (env : Env) : Option Int :=
  if env.aptAvailable then
    pyInt? (String.trim (if env.aptOut = "" then "0" else env.aptOut))
  else none

/-- The `docker` field: tri-state derived from tool availability and
`docker info`'s exit status. -/
def dockerStatus (env : Env) : Option String :=
  if env.dockerAvailable then
    some (if env.dockerInfoOk then "running"
          else "installed_not_running_or_no_perms")
  else none

/-- One run of the script body: evaluates the rules and assembles the report.
`none` models the uncaught `ValueError` from `int()` on a malformed disk
token (no report is produced then). -/
def run (env : Env) (args : Args) : Option Report :=
  (diskUseNum? env).map fun u =>
    let fs := failuresList u env args
    { host := env.host
      os := env.osName
      kernel := env.kernel
      uptime := env.uptimeOut
      boot_time := env.bootOut
      load1m := env.load1
      load5m := env.load5
      load15m := env.load15
      cpu_usage_pct := cpuUsage env
      memory :=
        { used_pct := memUsedPct env
          used_kb := memUsedKb env
          total_kb := env.memTotal }
      disk_root :=
        { used_pct := env.diskUsePct
          size := env.diskSize
          avail := env.diskAvail
          threshold_pct := args.diskThreshold }
      network := { ping_host := args.ping, ping_ok := pingOkStr env }
      services :=
        { checked := checkedServices args, down := servicesDown env args }
      upgrades_pending := pkgUpgrades env
      docker := dockerStatus env
      status := statusOf fs
      failures := fs }

/-- Code `exit(0 if status == "healthy" else 1)`. -/
def exitCode (r : Report) : Nat := if r.status = "healthy" then 0 else 1

/-- Exit code of a run that produced a report. -/
def runExit (env : Env) (args : Args) : Option Nat :=
  (run env args).map exitCode

/-- Rank of a failure entry by which rule produced it (disk entries start
with `R`, ping entries with `P`, services entries with `S`). -/
def failRank (s : String) : Nat :=
  if s.data.head? = some 'R' then 0
  else if s.data.head? = some 'P' then 1
  else 2

/-- Default CLI arguments of the script. -/
def argsA : Args :=
  { diskThreshold := 85, ping := "8.8.8.8", services := "ssh cron",
    format := "json" }

/-- Concrete probe outputs: disk at 90% (above threshold), ping succeeds,
all services active, no apt/docker tooling. -/
def envA : Env :=
  { host := "demo", kernel := "6.8.0", osName := "Ubuntu 24.04",
    uptimeOut := "up 1 hour", bootOut := "2026-10-12 08:00",
    load1 := "0.10", load5 := "0.20", load15 := "0.30",
    cpuOut := "5", memTotal := 1000, memAvail := 250,
    diskFs := "/dev/sda1", diskSize := "50G", diskUsed := "45G",
    diskAvail := "5G", diskUsePct := "90%", diskMount := "/",
    pingAvailable := true, pingExitZero := true,
    systemctlAvailable := true, serviceActive := fun _ => true,
    aptAvailable := false, aptOut := "",
    dockerAvailable := false, dockerInfoOk := false }

/-- Concrete probe outputs: disk at 50%, ping tool absent (classification
`unknown`), service `cron` inactive. -/
def envB : Env :=
  { envA with
    diskUsePct := "50%"
    pingAvailable := false
    serviceActive := fun s => s != "cron" }

/-- Probe outputs agreeing with `envA` on disk, ping and services but
differing in every informational fact (memory, CPU, uptime, packages,
docker, identity). -/
def envC : Env :=
  { envA with
    host := "other"
    kernel := "5.15.0"
    osName := "Ubuntu 22.04"
    uptimeOut := "up 2 days"
    bootOut := "2026-10-10 07:00"
    load1 := "3.00"
    load5 := "2.00"
    load15 := "1.00"
    cpuOut := ""
    memTotal := 8000
    memAvail := 2000
    aptAvailable := true
    aptOut := "7"
    dockerAvailable := true
    dockerInfoOk := true }

/-- Concrete probe outputs making all three rules fire: disk at 91%, ping
fails, every service inactive. -/
def envD : Env :=
  { envA with
    diskUsePct := "91%"
    pingExitZero := false
    serviceActive := fun _ => false }

/-- Unpacking a successful run: the report's derived fields are exactly the
evaluator's outputs. -/
theorem run_some_cases (env : Env) (args : Args) (r : Report)
    (h : run env args = some r) :
    ∃ u, diskUseNum? env = some u ∧
      r.failures = failuresList u env args ∧
      r.status = statusOf (failuresList u env args) ∧
      r.services.checked = checkedServices args ∧
      r.services.down = servicesDown env args ∧
      r.memory.used_pct = memUsedPct env ∧
      r.disk_root.used_pct = env.diskUsePct ∧
      r.disk_root.threshold_pct = args.diskThreshold := by
  unfold run at h
  cases hd : diskUseNum? env with
  | none => rw [hd] at h; exact absurd h (by simp)
  | some u =>
    rw [hd] at h
    simp only [Option.map_some', Option.some.injEq] at h
    subst h
    exact ⟨u, rfl, rfl, rfl, rfl, rfl, rfl, rfl, rfl⟩

/-- The status string is `unhealthy` exactly on a non-empty failures list. -/
theorem statusOf_eq_unhealthy (fs : List String) :
    statusOf fs = "unhealthy" ↔ fs ≠ [] := by
  unfold statusOf
  by_cases hfs : fs = [] <;> simp [hfs]

/-- The status string is `healthy` exactly on an empty failures list. -/
theorem statusOf_eq_healthy (fs : List String) :
    statusOf fs = "healthy" ↔ fs = [] := by
  unfold statusOf
  by_cases hfs : fs = [] <;> simp [hfs]

/-- The disk rule fires exactly when the parsed usage exceeds the threshold. -/
theorem diskFailList_ne_nil_iff (u : Int) (env : Env) (args : Args) :
    diskFailList u env args ≠ [] ↔ u > args.diskThreshold := by
  unfold diskFailList
  split <;> simp_all

/-- Without the ping tool the classification is `unknown`. -/
theorem pingOkStr_of_not_available (env : Env)
    (h : env.pingAvailable = false) : pingOkStr env = "unknown" := by
  unfold pingOkStr
  rw [h]
  simp

/-- The ping rule fires exactly when the classification is `false`. -/
theorem pingFailList_ne_nil_iff (env : Env) (args : Args) :
    pingFailList env args ≠ [] ↔ pingOkStr env = "false" := by
  unfold pingFailList
  cases ha : env.pingAvailable with
  | false =>
    rw [pingOkStr_of_not_available env ha]
    simp
  | true =>
    simp only [if_true]
    split <;> simp_all

/-- When the classification is `false` the ping rule appends its entry. -/
theorem pingFailList_eq_of_false (env : Env) (args : Args)
    (hf : pingOkStr env = "false") :
    pingFailList env args = [pingMsg args] := by
  have ha : env.pingAvailable = true := by
    cases ha : env.pingAvailable with
    | false => rw [pingOkStr_of_not_available env ha] at hf; exact absurd hf (by decide)
    | true => rfl
  simp [pingFailList, ha, hf]

/-- Without systemctl no service is collected as down. -/
theorem servicesDown_of_not_systemctl (env : Env) (args : Args)
    (h : env.systemctlAvailable = false) : servicesDown env args = [] := by
  unfold servicesDown
  rw [h]
  simp

/-- The services rule fires exactly when some checked service is down. -/
theorem svcFailList_ne_nil_iff (env : Env) (args : Args) :
    svcFailList env args ≠ [] ↔ servicesDown env args ≠ [] := by
  unfold svcFailList
  cases hs : env.systemctlAvailable with
  | false =>
    rw [servicesDown_of_not_systemctl env args hs]
    simp
  | true =>
    simp only [if_true]
    split <;> simp_all

/-- Any entry the disk rule contributes is the disk message. -/
theorem mem_diskFailList {a : String} {u : Int} {env : Env} {args : Args}
    (h : a ∈ diskFailList u env args) : a = diskMsg env args := by
  unfold diskFailList at h
  split at h <;> simp_all

/-- Any entry the ping rule contributes is the ping message. -/
theorem mem_pingFailList {a : String} {env : Env} {args : Args}
    (h : a ∈ pingFailList env args) : a = pingMsg args := by
  unfold pingFailList at h
  split at h
  · split at h <;> simp_all
  · simp_all

/-- Any entry the services rule contributes is the services message. -/
theorem mem_svcFailList {a : String} {env : Env} {args : Args}
    (h : a ∈ svcFailList env args) : a = svcMsg env args := by
  unfold svcFailList at h
  split at h
  · split at h <;> simp_all
  · simp_all

/-- Appending on the right keeps the first character. -/
theorem head_append_left (s t : String) (c : Char)
    (h : s.data.head? = some c) : (s ++ t).data.head? = some c := by
  rw [String.data_append]
  cases hs : s.data with
  | nil => rw [hs] at h; cases h
  | cons a as =>
    rw [hs] at h
    simp only [List.cons_append, List.head?_cons] at h ⊢
    exact h

/-- The disk message starts with `R`. -/
theorem strHead_diskMsg (env : Env) (args : Args) :
    (diskMsg env args).data.head? = some 'R' := by
  unfold diskMsg
  exact head_append_left _ _ _ (head_append_left _ _ _
    (head_append_left _ _ _ (head_append_left _ _ _ rfl)))

/-- The ping message starts with `P`. -/
theorem strHead_pingMsg (args : Args) :
    (pingMsg args).data.head? = some 'P' := by
  unfold pingMsg
  exact head_append_left _ _ _ (head_append_left _ _ _ rfl)

/-- The services message starts with `S`. -/
theorem strHead_svcMsg (env : Env) (args : Args) :
    (svcMsg env args).data.head? = some 'S' := by
  unfold svcMsg
  exact head_append_left _ _ _ rfl

/-- The disk message has rank 0. -/
theorem failRank_diskMsg (env : Env) (args : Args) :
    failRank (diskMsg env args) = 0 := by
  unfold failRank
  rw [strHead_diskMsg]
  simp

/-- The ping message has rank 1. -/
theorem failRank_pingMsg (args : Args) :
    failRank (pingMsg args) = 1 := by
  unfold failRank
  rw [strHead_pingMsg]
  simp

/-- The services message has rank 2. -/
theorem failRank_svcMsg (env : Env) (args : Args) :
    failRank (svcMsg env args) = 2 := by
  unfold failRank
  rw [strHead_svcMsg]
  simp

/-- Strings of different ranks are different. -/
theorem ne_of_failRank {a b : String} (h : failRank a ≠ failRank b) :
    a ≠ b := fun e => h (congrArg failRank e)

/-- The failures list is non-empty exactly when one of the three rules
fires. -/
theorem failuresList_ne_nil_iff (u : Int) (env : Env) (args : Args) :
    failuresList u env args ≠ [] ↔
      (u > args.diskThreshold ∨ pingOkStr env = "false" ∨
        servicesDown env args ≠ []) := by
  rw [← diskFailList_ne_nil_iff u env args,
    ← pingFailList_ne_nil_iff env args, ← svcFailList_ne_nil_iff env args]
  unfold failuresList
  simp only [ne_eq, List.append_eq_nil, not_and_or, or_assoc]

/-- With the ping tool present the classification is never `unknown`. -/
theorem pingOkStr_ne_unknown (env : Env) (h : env.pingAvailable = true) :
    pingOkStr env ≠ "unknown" := by
  cases hb : env.pingExitZero <;> simp [pingOkStr, h, hb]

/-- C1: for every run, for all parsed root-disk usage percentage `u` and
configured threshold `t`, the report's status is `unhealthy` iff
`u > t`, or the ping classification is exactly `false`, or at least one
checked service is reported not active; no other collected fact occurs in
the condition. -/
theorem C1_status_disjunction (env : Env) (args : Args) (r : Report) (u : Int)
    (h : run env args = some r) (hu : diskUseNum? env = some u) :
    r.status = "unhealthy" ↔
      (u > args.diskThreshold ∨ pingOkStr env = "false" ∨
        r.services.down ≠ []) := by
  obtain ⟨u', hu', hfail, hstat, hchk, hdown, _⟩ := run_some_cases env args r h
  have huu : u' = u := by
    rw [hu] at hu'
    exact (Option.some.inj hu').symm
  subst huu
  rw [hstat, hdown, statusOf_eq_unhealthy, failuresList_ne_nil_iff]

/-- C1 witness: disk at 90% over threshold 85 yields `unhealthy`. -/
theorem C1_witness :
    ∃ r, run envA argsA = some r ∧
      (r.status = "unhealthy" ↔
        ((90 : Int) > argsA.diskThreshold ∨ pingOkStr envA = "false" ∨
          r.services.down ≠ [])) := by
  obtain ⟨r, hr⟩ : ∃ r, run envA argsA = some r := ⟨_, rfl⟩
  exact ⟨r, hr, C1_status_disjunction envA argsA r 90 hr (by decide)⟩

/-- C2: for every run, the status is `unhealthy` exactly when the failures
list is non-empty, and `healthy` exactly when it is empty. -/
theorem C2_status_iff_failures (env : Env) (args : Args) (r : Report)
    (h : run env args = some r) :
    (r.status = "unhealthy" ↔ r.failures ≠ []) ∧
    (r.status = "healthy" ↔ r.failures = []) := by
  obtain ⟨u, hu, hfail, hstat, _⟩ := run_some_cases env args r h
  rw [hstat, hfail]
  exact ⟨statusOf_eq_unhealthy _, statusOf_eq_healthy _⟩

/-- C2 witness at a concrete run with one failure. -/
theorem C2_witness :
    ∃ r, run envA argsA = some r ∧
      ((r.status = "unhealthy" ↔ r.failures ≠ []) ∧
       (r.status = "healthy" ↔ r.failures = [])) := by
  obtain ⟨r, hr⟩ : ∃ r, run envA argsA = some r := ⟨_, rfl⟩
  exact ⟨r, hr, C2_status_iff_failures envA argsA r hr⟩

/-- C3: for every run that produces a report, the exit code is 0 when the
status is `healthy`, 1 when it is `unhealthy`, and nothing else. -/
theorem C3_exit_code (env : Env) (args : Args) (r : Report)
    (h : run env args = some r) :
    (r.status = "healthy" → runExit env args = some 0) ∧
    (r.status = "unhealthy" → runExit env args = some 1) ∧
    (runExit env args = some 0 ∨ runExit env args = some 1) := by
  have he : runExit env args = some (exitCode r) := by
    unfold runExit
    rw [h, Option.map_some']
  refine ⟨?_, ?_, ?_⟩
  · intro hh
    rw [he]
    unfold exitCode
    rw [if_pos hh]
  · intro hh
    rw [he]
    unfold exitCode
    rw [if_neg (by rw [hh]; decide)]
  · rw [he]
    unfold exitCode
    split
    · exact Or.inl rfl
    · exact Or.inr rfl

/-- C3 witness: the unhealthy run at `envA` exits with code 1. -/
theorem C3_witness :
    ∃ r, run envA argsA = some r ∧
      ((r.status = "healthy" → runExit envA argsA = some 0) ∧
       (r.status = "unhealthy" → runExit envA argsA = some 1) ∧
       (runExit envA argsA = some 0 ∨ runExit envA argsA = some 1)) := by
  obtain ⟨r, hr⟩ : ∃ r, run envA argsA = some r := ⟨_, rfl⟩
  exact ⟨r, hr, C3_exit_code envA argsA r hr⟩

/-- C4: a ping classification of `unknown` never contributes an entry to
failures; the string `Ping to {target} failed` is present exactly when the
classification is `false`. -/
theorem C4_ping_unknown (env : Env) (args : Args) (r : Report)
    (h : run env args = some r) :
    (pingOkStr env = "unknown" → pingMsg args ∉ r.failures) ∧
    (pingMsg args ∈ r.failures ↔ pingOkStr env = "false") := by
  obtain ⟨u, hu, hfail, _⟩ := run_some_cases env args r h
  have key : pingMsg args ∈ r.failures ↔ pingOkStr env = "false" := by
    rw [hfail]
    unfold failuresList
    simp only [List.mem_append]
    constructor
    · rintro ((hA | hB) | hC)
      · have hd := congrArg failRank (mem_diskFailList hA)
        rw [failRank_pingMsg, failRank_diskMsg] at hd
        exact absurd hd (by decide)
      · exact (pingFailList_ne_nil_iff env args).mp (List.ne_nil_of_mem hB)
      · have hs := congrArg failRank (mem_svcFailList hC)
        rw [failRank_pingMsg, failRank_svcMsg] at hs
        exact absurd hs (by decide)
    · intro hf
      left; right
      rw [pingFailList_eq_of_false env args hf]
      exact List.mem_singleton_self _
  refine ⟨?_, key⟩
  intro hunk hmem
  have hfalse := key.mp hmem
  rw [hunk] at hfalse
  exact absurd hfalse (by decide)

/-- C4 witness: at `envB` the ping tool is absent, the classification is
`unknown`, and no ping entry appears. -/
theorem C4_witness :
    ∃ r, run envB argsA = some r ∧
      ((pingOkStr envB = "unknown" → pingMsg argsA ∉ r.failures) ∧
       (pingMsg argsA ∈ r.failures ↔ pingOkStr envB = "false")) := by
  obtain ⟨r, hr⟩ : ∃ r, run envB argsA = some r := ⟨_, rfl⟩
  exact ⟨r, hr, C4_ping_unknown envB argsA r hr⟩

/-- C5: `services.down` is exactly the order-preserving subsequence of
`services.checked` whose queried active-state is not active (when systemctl
queried them), and a non-empty `down` puts the entry
`Services not active: ` + space-joined down names into failures. -/
theorem C5_services_down (env : Env) (args : Args) (r : Report)
    (h : run env args = some r) :
    (env.systemctlAvailable = true →
      r.services.down =
        r.services.checked.filter (fun s => !env.serviceActive s)) ∧
    (r.services.down ≠ [] →
      ("Services not active: " ++
        String.intercalate " " r.services.down) ∈ r.failures) := by
  obtain ⟨u, hu, hfail, hstat, hchk, hdown, _⟩ := run_some_cases env args r h
  constructor
  · intro hsys
    rw [hdown, hchk]
    unfold servicesDown
    rw [hsys]
    simp
  · intro hne
    rw [hdown] at hne
    have hsys : env.systemctlAvailable = true := by
      cases hs : env.systemctlAvailable with
      | false => exact absurd (servicesDown_of_not_systemctl env args hs) hne
      | true => rfl
    rw [hfail, hdown]
    unfold failuresList
    simp only [List.mem_append]
    right
    have hsvc : svcFailList env args = [svcMsg env args] := by
      unfold svcFailList
      rw [hsys]
      simp [hne]
    rw [hsvc]
    simp [svcMsg]

/-- C5 witness: at `envB` the service `cron` is down; the entry
`Services not active: cron` is present. -/
theorem C5_witness :
    ∃ r, run envB argsA = some r ∧
      ((envB.systemctlAvailable = true →
        r.services.down =
          r.services.checked.filter (fun s => !envB.serviceActive s)) ∧
       (r.services.down ≠ [] →
        ("Services not active: " ++
          String.intercalate " " r.services.down) ∈ r.failures)) := by
  obtain ⟨r, hr⟩ : ∃ r, run envB argsA = some r := ⟨_, rfl⟩
  exact ⟨r, hr, C5_services_down envB argsA r hr⟩

/-- C6: `memory.used_pct` equals `round((total - avail) / total * 100, 1)`
for positive total, and 0 when total is 0 (defensive default, no crash). -/
theorem C6_memory_pct (env : Env) (args : Args) (r : Report)
    (h : run env args = some r) :
    (0 < env.memTotal →
      r.memory.used_pct =
        pyRound1 ((((env.memTotal : ℚ) - (env.memAvail : ℚ)) /
          (env.memTotal : ℚ)) * 100)) ∧
    (env.memTotal = 0 → r.memory.used_pct = 0) := by
  obtain ⟨u, hu, hfail, hstat, hchk, hdown, hmem, _⟩ :=
    run_some_cases env args r h
  constructor
  · intro hpos
    rw [hmem]
    unfold memUsedPct
    rw [if_pos (Nat.pos_iff_ne_zero.mp hpos)]
    congr 1
    unfold memUsedKb
    push_cast
    ring
  · intro h0
    rw [hmem]
    unfold memUsedPct
    rw [if_neg (by simp [h0])]

/-- C6 witness: total 1000 kB, available 250 kB gives 75.0 percent. -/
theorem C6_witness :
    ∃ r, run envA argsA = some r ∧
      ((0 < envA.memTotal →
        r.memory.used_pct =
          pyRound1 ((((envA.memTotal : ℚ) - (envA.memAvail : ℚ)) /
            (envA.memTotal : ℚ)) * 100)) ∧
       (envA.memTotal = 0 → r.memory.used_pct = 0)) := by
  obtain ⟨r, hr⟩ : ∃ r, run envA argsA = some r := ⟨_, rfl⟩
  exact ⟨r, hr, C6_memory_pct envA argsA r hr⟩

/-- C7: the failures list is ordered by the fixed rule-evaluation order:
disk entries (rank 0) before ping entries (rank 1) before services entries
(rank 2). -/
theorem C7_failures_order (env : Env) (args : Args) (r : Report)
    (h : run env args = some r) :
    r.failures.Pairwise (fun a b => failRank a ≤ failRank b) := by
  obtain ⟨u, hu, hfail, _⟩ := run_some_cases env args r h
  rw [hfail]
  unfold failuresList
  rw [List.pairwise_append]
  refine ⟨?_, ?_, ?_⟩
  · rw [List.pairwise_append]
    refine ⟨?_, ?_, ?_⟩
    · unfold diskFailList
      split <;> simp
    · unfold pingFailList
      split
      · split <;> simp
      · simp
    · intro a ha b hb
      rw [mem_diskFailList ha, mem_pingFailList hb,
        failRank_diskMsg, failRank_pingMsg]
      omega
  · unfold svcFailList
    split
    · split <;> simp
    · simp
  · intro a ha b hb
    rw [mem_svcFailList hb, failRank_svcMsg]
    rcases List.mem_append.mp ha with hA | hB
    · rw [mem_diskFailList hA, failRank_diskMsg]
      omega
    · rw [mem_pingFailList hB, failRank_pingMsg]
      omega

/-- C7 witness: at `envD` all three rules fire and the three entries come
out in rule order. -/
theorem C7_witness :
    ∃ r, run envD argsA = some r ∧
      r.failures.Pairwise (fun a b => failRank a ≤ failRank b) := by
  obtain ⟨r, hr⟩ : ∃ r, run envD argsA = some r := ⟨_, rfl⟩
  exact ⟨r, hr, C7_failures_order envD argsA r hr⟩

/-- C8 counterexample: in the report of a concrete run the
`disk_root.used_pct` field is the string `"90%"`, which is not the decimal
representation of any integer between 0 and 100 — the schema sentence
fails on the code. -/
theorem C8_counterexample :
    ∃ r, run envA argsA = some r ∧
      ∀ n : ℕ, n ≤ 100 → r.disk_root.used_pct ≠ toString n := by
  refine ⟨_, rfl, ?_⟩
  decide

/-- C8 (amended): in every report, `disk_root.used_pct` is the raw
percentage token collected from `df` (a string such as `"90%"`), and
`threshold_pct` is the integer threshold. -/
theorem C8_used_pct_is_df_token (env : Env) (args : Args) (r : Report)
    (h : run env args = some r) :
    r.disk_root.used_pct = env.diskUsePct ∧
    r.disk_root.threshold_pct = args.diskThreshold := by
  obtain ⟨u, hu, hfail, hstat, hchk, hdown, hmem, hpct, hth⟩ :=
    run_some_cases env args r h
  exact ⟨hpct, hth⟩

/-- C8 witness: at `envA` the field equals the df token `"90%"`. -/
theorem C8_witness :
    ∃ r, run envA argsA = some r ∧
      (r.disk_root.used_pct = envA.diskUsePct ∧
       r.disk_root.threshold_pct = argsA.diskThreshold) := by
  obtain ⟨r, hr⟩ : ∃ r, run envA argsA = some r := ⟨_, rfl⟩
  exact ⟨r, hr, C8_used_pct_is_df_token envA argsA r hr⟩

/-- C9: two runs with the same arguments that collect the same disk token,
the same ping classification and the same per-service availability produce
the same failures and status, whatever their memory, CPU, uptime, package
or docker facts are. -/
theorem C9_noninterference (e1 e2 : Env) (args : Args) (r1 r2 : Report)
    (h1 : run e1 args = some r1) (h2 : run e2 args = some r2)
    (hdisk : e1.diskUsePct = e2.diskUsePct)
    (hping : pingOkStr e1 = pingOkStr e2)
    (hsys : e1.systemctlAvailable = e2.systemctlAvailable)
    (hact : ∀ s, e1.serviceActive s = e2.serviceActive s) :
    r1.failures = r2.failures ∧ r1.status = r2.status := by
  have havail : e1.pingAvailable = e2.pingAvailable := by
    cases ha1 : e1.pingAvailable <;> cases ha2 : e2.pingAvailable
    · rfl
    · exact absurd (hping.symm.trans (pingOkStr_of_not_available e1 ha1))
        (pingOkStr_ne_unknown e2 ha2)
    · exact absurd (hping.trans (pingOkStr_of_not_available e2 ha2))
        (pingOkStr_ne_unknown e1 ha1)
    · rfl
  have hdu : diskUseNum? e1 = diskUseNum? e2 := by
    unfold diskUseNum?
    rw [hdisk]
  have hsd : servicesDown e1 args = servicesDown e2 args := by
    unfold servicesDown
    rw [hsys]
    split
    · exact List.filter_congr (fun x _ => by rw [hact x])
    · rfl
  obtain ⟨u1, hu1, hfail1, hstat1, _⟩ := run_some_cases e1 args r1 h1
  obtain ⟨u2, hu2, hfail2, hstat2, _⟩ := run_some_cases e2 args r2 h2
  have huu : u1 = u2 := by
    rw [hu1, hu2] at hdu
    exact Option.some.inj hdu
  subst huu
  have hfl : failuresList u1 e1 args = failuresList u1 e2 args := by
    unfold failuresList diskFailList pingFailList svcFailList diskMsg svcMsg
    rw [hdisk, hping, hsys, hsd, havail]
  exact ⟨by rw [hfail1, hfail2, hfl], by rw [hstat1, hstat2, hfl]⟩

/-- C9 witness: `envA` and `envC` differ in memory, CPU, load, uptime,
packages, docker and identity, yet failures and status agree. -/
theorem C9_witness :
    ∃ r1 r2, run envA argsA = some r1 ∧ run envC argsA = some r2 ∧
      r1.failures = r2.failures ∧ r1.status = r2.status := by
  obtain ⟨r1, h1⟩ : ∃ r, run envA argsA = some r := ⟨_, rfl⟩
  obtain ⟨r2, h2⟩ : ∃ r, run envC argsA = some r := ⟨_, rfl⟩
  exact ⟨r1, r2, h1, h2,
    C9_noninterference envA envC argsA r1 r2 h1 h2 rfl rfl rfl (fun _ => rfl)⟩

/-- C10: the failures list has at most three entries, and each rule
contributes at most one: at most one disk entry (rank 0), one ping entry
(rank 1), one services entry (rank 2). -/
theorem C10_at_most_three (env : Env) (args : Args) (r : Report)
    (h : run env args = some r) :
    r.failures.length ≤ 3 ∧
    r.failures.countP (fun s => failRank s == 0) ≤ 1 ∧
    r.failures.countP (fun s => failRank s == 1) ≤ 1 ∧
    r.failures.countP (fun s => failRank s == 2) ≤ 1 := by
  obtain ⟨u, hu, hfail, _⟩ := run_some_cases env args r h
  rw [hfail]
  have hlA : (diskFailList u env args).length ≤ 1 := by
    unfold diskFailList
    split <;> simp
  have hlB : (pingFailList env args).length ≤ 1 := by
    unfold pingFailList
    split
    · split <;> simp
    · simp
  have hlC : (svcFailList env args).length ≤ 1 := by
    unfold svcFailList
    split
    · split <;> simp
    · simp
  have cA0 : ∀ p : String → Bool,
      (diskFailList u env args).countP p ≤ 1 :=
    fun p => le_trans (List.countP_le_length p) hlA
  have cB0 : ∀ p : String → Bool,
      (pingFailList env args).countP p ≤ 1 :=
    fun p => le_trans (List.countP_le_length p) hlB
  have cC0 : ∀ p : String → Bool,
      (svcFailList env args).countP p ≤ 1 :=
    fun p => le_trans (List.countP_le_length p) hlC
  refine ⟨?_, ?_, ?_, ?_⟩
  · unfold failuresList
    rw [List.length_append, List.length_append]
    omega
  · unfold failuresList
    rw [List.countP_append, List.countP_append]
    have c2 : (pingFailList env args).countP (fun s => failRank s == 0) = 0 :=
      List.countP_eq_zero.mpr (fun a ha => by
        rw [mem_pingFailList ha, failRank_pingMsg]; decide)
    have c3 : (svcFailList env args).countP (fun s => failRank s == 0) = 0 :=
      List.countP_eq_zero.mpr (fun a ha => by
        rw [mem_svcFailList ha, failRank_svcMsg]; decide)
    have c1 := cA0 (fun s => failRank s == 0)
    omega
  · unfold failuresList
    rw [List.countP_append, List.countP_append]
    have c1 : (diskFailList u env args).countP (fun s => failRank s == 1) = 0 :=
      List.countP_eq_zero.mpr (fun a ha => by
        rw [mem_diskFailList ha, failRank_diskMsg]; decide)
    have c3 : (svcFailList env args).countP (fun s => failRank s == 1) = 0 :=
      List.countP_eq_zero.mpr (fun a ha => by
        rw [mem_svcFailList ha, failRank_svcMsg]; decide)
    have c2 := cB0 (fun s => failRank s == 1)
    omega
  · unfold failuresList
    rw [List.countP_append, List.countP_append]
    have c1 : (diskFailList u env args).countP (fun s => failRank s == 2) = 0 :=
      List.countP_eq_zero.mpr (fun a ha => by
        rw [mem_diskFailList ha, failRank_diskMsg]; decide)
    have c2 : (pingFailList env args).countP (fun s => failRank s == 2) = 0 :=
      List.countP_eq_zero.mpr (fun a ha => by
        rw [mem_pingFailList ha, failRank_pingMsg]; decide)
    have c3 := cC0 (fun s => failRank s == 2)
    omega

/-- C10 witness: at `envD` all three rules fire, giving exactly three
entries, one of each rank. -/
theorem C10_witness :
    ∃ r, run envD argsA = some r ∧
      (r.failures.length ≤ 3 ∧
       r.failures.countP (fun s => failRank s == 0) ≤ 1 ∧
       r.failures.countP (fun s => failRank s == 1) ≤ 1 ∧
       r.failures.countP (fun s => failRank s == 2) ≤ 1) := by
  obtain ⟨r, hr⟩ : ∃ r, run envD argsA = some r := ⟨_, rfl⟩
  exact ⟨r, hr, C10_at_most_three envD argsA r hr⟩

end UbuntuHealth
